import Mathlib

/-!
Shallow embedding of the `markusapi` Python package (MarkUsProject/markus-api):
`markusapi/response_parser.py` and `markusapi/markusapi.py`.

Modelling conventions:
* Python values that can appear in a request parameter mapping, a JSON body or
  a multipart payload are modelled by `PyVal`.  `PyVal.none` is Python's `None`.
  Datetime objects and numeric payloads pass through the client untouched, so
  they are carried by opaque integer tokens.  `bytes` file contents behave
  exactly like `str` contents (pure pass-through), so file contents are carried
  as strings.
* A Python dict used as a parameter mapping is modelled as an insertion-ordered
  association list `List (String × PyVal)`; the call sites build each dict
  literally in source order.
* An HTTP call made through the `requests` library is modelled as the `Request`
  record the client hands to the transport (verb, url, headers, params, json
  body, files).  A keyword argument the code does not pass is recorded as
  `[]` / `Option.none`.
* The transport itself, JSON decoding and MIME-type guessing are external
  collaborators; they enter as explicit oracle arguments (`transport`,
  `guess`) or as fields of `Response`.
-/

inductive PyVal where
  | none
  | bool (b : Bool)
  | int (n : Int)
  | str (s : String)
  | dt (token : Int)
  | list (items : List PyVal)
  | dict (fields : List (String × PyVal))

/-- Python's `v is None` test, used by the dict-cleanup loops in the source. -/
def PyVal.isNone : PyVal → Bool
  | PyVal.none => true
  | _ => false

inductive Verb where
  | get
  | post
  | put
  | delete
deriving DecidableEq

/-- The request record handed to the `requests` transport: the HTTP verb, the
full URL, the headers and the `params=` / `json=` / `files=` keyword
arguments.  `files` models the single-entry dict
`{"file_content": (name, contents)}` used by every upload in the source. -/
structure Request where
  verb : Verb
  url : String
  headers : List (String × String)
  params : List (String × PyVal)
  jsonBody : Option PyVal
  files : Option (String × String × PyVal)

/-- A completed transport response: `ok` is `requests.Response.ok`
(status < 400), and the three decodings `.json()`, `.text`, `.content`
are carried as fields (decoding is an external collaborator). -/
structure Response where
  ok : Bool
  json : PyVal
  text : String
  content : List Nat

/-- What a decorated endpoint hands back to the caller: a JSON structure, a
text payload or a raw byte payload. -/
inductive ParseResult where
  | json (v : PyVal)
  | text (s : String)
  | content (b : List Nat)

/-- `markusapi/response_parser.py`, `parse_response`: the body of the wrapper
`_f`, applied to the response returned by the wrapped endpoint. -/
def parse_response (expected : String) (response : Response) : ParseResult :=
  if !response.ok || expected == "json" then ParseResult.json response.json
  else if expected == "content" then ParseResult.content response.content
  else if expected == "text" then ParseResult.text response.text
  else ParseResult.json response.json

/-- The client object: `Markus.__init__` stores the api key and the root url. -/
structure Markus where
  api_key : String
  url : String

/-- `Markus._auth_header`. -/
def Markus._auth_header (m : Markus) : List (String × String) :=
  [("Authorization", "MarkUsAuth " ++ m.api_key)]

/-- `Markus._url`. -/
def Markus._url (m : Markus) (tail : String := "") : String :=
  m.url ++ "/api/" ++ tail ++ ".json"

/-- Python `str(x)` for an `Optional[int]` interpolated into an f-string:
`None` renders as the literal `"None"`. -/
def pyStrOptInt : Option Int → String
  | Option.none => "None"
  | some n => toString n

/-- Python `x or y` for `x : Optional[str]`: `None` and the empty string are
falsy, so they fall through to `y`. -/
def pyOrStr (x y : Option String) : Option String :=
  match x with
  | some s => if s == "" then y else some s
  | Option.none => y

/-- An `Optional[str]` placed as a value into a parameter dict. -/
def optStrVal : Option String → PyVal
  | some s => PyVal.str s
  | Option.none => PyVal.none

/-- An `Optional[datetime]` placed as a value into a parameter dict. -/
def optDtVal : Option Int → PyVal
  | some d => PyVal.dt d
  | Option.none => PyVal.none

/-- An `Optional[bool]` placed as a value into a parameter dict. -/
def optBoolVal : Option Bool → PyVal
  | some b => PyVal.bool b
  | Option.none => PyVal.none

/-- An `Optional[List[Dict[...]]]` placed as a value into a parameter dict. -/
def optListVal : Option (List PyVal) → PyVal
  | some l => PyVal.list l
  | Option.none => PyVal.none

/-- `Markus.get_all_users` (decorated `parse_response("json")`). -/
def Markus.get_all_users (m : Markus) : Request :=
  { verb := Verb.get, url := m._url "users", headers := m._auth_header,
    params := [], jsonBody := Option.none, files := Option.none }

/-- `Markus.new_user` (decorated `parse_response("json")`): the base dict is
built, then `section_name` and `grace_credits` are added only when not `None`. -/
def Markus.new_user (m : Markus) (user_name user_type first_name last_name : String)
    (section_name : Option String := Option.none)
    (grace_credits : Option String := Option.none) : Request :=
  let params := [("user_name", PyVal.str user_name), ("type", PyVal.str user_type),
                 ("first_name", PyVal.str first_name), ("last_name", PyVal.str last_name)]
  let params := match section_name with
    | some s => params ++ [("section_name", PyVal.str s)]
    | Option.none => params
  let params := match grace_credits with
    | some g => params ++ [("grace_credits", PyVal.str g)]
    | Option.none => params
  { verb := Verb.post, url := m._url "users", headers := m._auth_header,
    params := params, jsonBody := Option.none, files := Option.none }

/-- `Markus.get_assignments` (decorated `parse_response("json")`). -/
def Markus.get_assignments (m : Markus) : Request :=
  { verb := Verb.get, url := m._url "assignments", headers := m._auth_header,
    params := [], jsonBody := Option.none, files := Option.none }

/-- `Markus.get_groups` (decorated `parse_response("json")`). -/
def Markus.get_groups (m : Markus) (assignment_id : Int) : Request :=
  { verb := Verb.get, url := m._url ("assignments/" ++ toString assignment_id ++ "/groups"),
    headers := m._auth_header, params := [], jsonBody := Option.none, files := Option.none }

/-- `Markus.get_groups_by_name` (decorated `parse_response("json")`). -/
def Markus.get_groups_by_name (m : Markus) (assignment_id : Int) : Request :=
  { verb := Verb.get,
    url := m._url ("assignments/" ++ toString assignment_id ++ "/groups/group_ids_by_name"),
    headers := m._auth_header, params := [], jsonBody := Option.none, files := Option.none }

/-- `Markus.get_group` (decorated `parse_response("json")`). -/
def Markus.get_group (m : Markus) (assignment_id group_id : Int) : Request :=
  { verb := Verb.get,
    url := m._url ("assignments/" ++ toString assignment_id ++ "/groups/" ++ toString group_id),
    headers := m._auth_header, params := [], jsonBody := Option.none, files := Option.none }

/-- `Markus.get_feedback_files` (decorated `parse_response("json")`). -/
def Markus.get_feedback_files (m : Markus) (assignment_id group_id : Int) : Request :=
  { verb := Verb.get,
    url := m._url ("assignments/" ++ toString assignment_id ++ "/groups/" ++ toString group_id
      ++ "/feedback_files"),
    headers := m._auth_header, params := [], jsonBody := Option.none, files := Option.none }

/-- `Markus.get_feedback_file` (decorated `parse_response("content")`). -/
def Markus.get_feedback_file (m : Markus) (assignment_id group_id feedback_file_id : Int) :
    Request :=
  { verb := Verb.get,
    url := m._url ("assignments/" ++ toString assignment_id ++ "/groups/" ++ toString group_id
      ++ "/feedback_files/" ++ toString feedback_file_id),
    headers := m._auth_header, params := [], jsonBody := Option.none, files := Option.none }

/-- `Markus.get_grades_summary` (decorated `parse_response("text")`). -/
def Markus.get_grades_summary (m : Markus) (assignment_id : Int) : Request :=
  { verb := Verb.get,
    url := m._url ("assignments/" ++ toString assignment_id ++ "/grades_summary"),
    headers := m._auth_header, params := [], jsonBody := Option.none, files := Option.none }

/-- `Markus.new_marks_spreadsheet` (decorated `parse_response("json")`): the
dict literal carries all six keys, optional arguments included, so an unset
optional argument appears with value `None`. -/
def Markus.new_marks_spreadsheet (m : Markus) (short_identifier : String)
    (description : String := "") (date : Option Int := Option.none)
    (is_hidden : Bool := true) (show_total : Bool := true)
    (grade_entry_items : Option (List PyVal) := Option.none) : Request :=
  { verb := Verb.post, url := m._url "grade_entry_forms", headers := m._auth_header,
    params := [("short_identifier", PyVal.str short_identifier),
               ("description", PyVal.str description),
               ("date", optDtVal date),
               ("is_hidden", PyVal.bool is_hidden),
               ("show_total", PyVal.bool show_total),
               ("grade_entry_items", optListVal grade_entry_items)],
    jsonBody := Option.none, files := Option.none }

/-- `Markus.update_marks_spreadsheet` (decorated `parse_response("json")`): the
six-key dict literal is built, then the `for name in list(params)` loop pops
every entry whose value `is None`. -/
def Markus.update_marks_spreadsheet (m : Markus) (spreadsheet_id : Int)
    (short_identifier : Option String := Option.none)
    (description : Option String := Option.none) (date : Option Int := Option.none)
    (is_hidden : Option Bool := Option.none) (show_total : Option Bool := Option.none)
    (grade_entry_items : Option (List PyVal) := Option.none) : Request :=
  let params := [("short_identifier", optStrVal short_identifier),
                 ("description", optStrVal description),
                 ("date", optDtVal date),
                 ("is_hidden", optBoolVal is_hidden),
                 ("show_total", optBoolVal show_total),
                 ("grade_entry_items", optListVal grade_entry_items)]
  let params := params.filter (fun kv => !kv.2.isNone)
  { verb := Verb.put, url := m._url ("grade_entry_forms/" ++ toString spreadsheet_id),
    headers := m._auth_header, params := params, jsonBody := Option.none,
    files := Option.none }

/-- `Markus.update_marks_spreadsheets_grades` (decorated `parse_response("json")`). -/
def Markus.update_marks_spreadsheets_grades (m : Markus) (spreadsheet_id : Int)
    (user_name : String) (grades_per_column : List (String × PyVal)) : Request :=
  { verb := Verb.put,
    url := m._url ("grade_entry_forms/" ++ toString spreadsheet_id ++ "/update_grades"),
    headers := m._auth_header, params := [],
    jsonBody := some (PyVal.dict [("user_name", PyVal.str user_name),
                                  ("grade_entry_items", PyVal.dict grades_per_column)]),
    files := Option.none }

/-- `Markus.get_marks_spreadsheets` (decorated `parse_response("json")`). -/
def Markus.get_marks_spreadsheets (m : Markus) : Request :=
  { verb := Verb.get, url := m._url "grade_entry_forms", headers := m._auth_header,
    params := [], jsonBody := Option.none, files := Option.none }

/-- `Markus.get_marks_spreadsheet` (decorated `parse_response("text")`). -/
def Markus.get_marks_spreadsheet (m : Markus) (spreadsheet_id : Int) : Request :=
  { verb := Verb.get, url := m._url ("grade_entry_forms/" ++ toString spreadsheet_id),
    headers := m._auth_header, params := [], jsonBody := Option.none, files := Option.none }

/-- `Markus.upload_test_group_results` (decorated `parse_response("json")`).
A non-string `test_output` is first serialized by `json.dumps` (an external
collaborator), so the payload reaching the request is a string either way; it
is modelled by the string argument. -/
def Markus.upload_test_group_results (m : Markus) (assignment_id group_id test_run_id : Int)
    (test_output : String) : Request :=
  { verb := Verb.post,
    url := m._url ("assignments/" ++ toString assignment_id ++ "/groups/" ++ toString group_id
      ++ "/test_group_results"),
    headers := m._auth_header, params := [],
    jsonBody := some (PyVal.dict [("test_run_id", PyVal.int test_run_id),
                                  ("test_output", PyVal.str test_output)]),
    files := Option.none }

/-- `Markus.upload_annotations` (decorated `parse_response("json")`). -/
def Markus.upload_annotations (m : Markus) (assignment_id group_id : Int)
    (annotations : List PyVal) (force_complete : Bool := false) : Request :=
  { verb := Verb.post,
    url := m._url ("assignments/" ++ toString assignment_id ++ "/groups/" ++ toString group_id
      ++ "/add_annotations"),
    headers := m._auth_header, params := [],
    jsonBody := some (PyVal.dict [("annotations", PyVal.list annotations),
                                  ("force_complete", PyVal.bool force_complete)]),
    files := Option.none }

/-- `Markus.get_annotations` (decorated `parse_response("json")`): `group_id`
is an `Optional[int]` interpolated directly into the f-string, so `None`
renders as the literal path segment `"None"`. -/
def Markus.get_annotations (m : Markus) (assignment_id : Int)
    (group_id : Option Int := Option.none) : Request :=
  { verb := Verb.get,
    url := m._url ("assignments/" ++ toString assignment_id ++ "/groups/"
      ++ pyStrOptInt group_id ++ "/annotations"),
    headers := m._auth_header, params := [], jsonBody := Option.none, files := Option.none }

/-- `Markus.update_marks_single_group` (decorated `parse_response("json")`):
`criteria_mark_map` is sent as the JSON body unchanged. -/
def Markus.update_marks_single_group (m : Markus) (criteria_mark_map : PyVal)
    (assignment_id group_id : Int) : Request :=
  { verb := Verb.put,
    url := m._url ("assignments/" ++ toString assignment_id ++ "/groups/" ++ toString group_id
      ++ "/update_marks"),
    headers := m._auth_header, params := [], jsonBody := some criteria_mark_map,
    files := Option.none }

/-- `Markus.update_marking_state` (decorated `parse_response("json")`). -/
def Markus.update_marking_state (m : Markus) (assignment_id group_id : Int)
    (new_marking_state : String) : Request :=
  { verb := Verb.put,
    url := m._url ("assignments/" ++ toString assignment_id ++ "/groups/" ++ toString group_id
      ++ "/update_marking_state"),
    headers := m._auth_header, params := [("marking_state", PyVal.str new_marking_state)],
    jsonBody := Option.none, files := Option.none }

/-- `Markus.create_extra_marks` (decorated `parse_response("json")`): the
float payload passes through unmodified and is carried by an integer token. -/
def Markus.create_extra_marks (m : Markus) (assignment_id group_id : Int)
    (extra_marks : Int) (description : String) : Request :=
  { verb := Verb.post,
    url := m._url ("assignments/" ++ toString assignment_id ++ "/groups/" ++ toString group_id
      ++ "/create_extra_marks"),
    headers := m._auth_header,
    params := [("extra_marks", PyVal.int extra_marks), ("description", PyVal.str description)],
    jsonBody := Option.none, files := Option.none }

/-- `Markus.remove_extra_marks` (decorated `parse_response("json")`): same
payload modelling as `create_extra_marks`. -/
def Markus.remove_extra_marks (m : Markus) (assignment_id group_id : Int)
    (extra_marks : Int) (description : String) : Request :=
  { verb := Verb.delete,
    url := m._url ("assignments/" ++ toString assignment_id ++ "/groups/" ++ toString group_id
      ++ "/remove_extra_marks"),
    headers := m._auth_header,
    params := [("extra_marks", PyVal.int extra_marks), ("description", PyVal.str description)],
    jsonBody := Option.none, files := Option.none }

/-- `Markus.get_files_from_repo` (decorated `parse_response("content")`):
`if collected:` and `if filename:` are Python truthiness tests, so
`collected=False`, `filename=None` and `filename=""` all leave their key out. -/
def Markus.get_files_from_repo (m : Markus) (assignment_id group_id : Int)
    (filename : Option String := Option.none) (collected : Bool := true) : Request :=
  let params : List (String × PyVal) := []
  let params := if collected then params ++ [("collected", PyVal.bool collected)] else params
  let params := match filename with
    | some f => if f == "" then params else params ++ [("filename", PyVal.str f)]
    | Option.none => params
  { verb := Verb.get,
    url := m._url ("assignments/" ++ toString assignment_id ++ "/groups/" ++ toString group_id
      ++ "/submission_files"),
    headers := m._auth_header, params := params, jsonBody := Option.none, files := Option.none }

/-- `Markus.upload_folder_to_repo` (decorated `parse_response("json")`). -/
def Markus.upload_folder_to_repo (m : Markus) (assignment_id group_id : Int)
    (folder_path : String) : Request :=
  { verb := Verb.post,
    url := m._url ("assignments/" ++ toString assignment_id ++ "/groups/" ++ toString group_id
      ++ "/submission_files/create_folders"),
    headers := m._auth_header, params := [("folder_path", PyVal.str folder_path)],
    jsonBody := Option.none, files := Option.none }

/-- `Markus.upload_file_to_repo` (decorated `parse_response("json")`): the
MIME type is `mime_type or mimetypes.guess_type(file_path)[0]`; the guesser is
an external collaborator passed as the oracle `guess`.  No check rejects a
still-missing MIME type: the request is built with value `None` in that case. -/
def Markus.upload_file_to_repo (m : Markus) (assignment_id group_id : Int)
    (file_path contents : String) (mime_type : Option String)
    (guess : String → Option String) : Request :=
  { verb := Verb.post,
    url := m._url ("assignments/" ++ toString assignment_id ++ "/groups/" ++ toString group_id
      ++ "/submission_files"),
    headers := m._auth_header,
    params := [("filename", PyVal.str file_path),
               ("mime_type", optStrVal (pyOrStr mime_type (guess file_path)))],
    jsonBody := Option.none,
    files := some ("file_content", file_path, PyVal.str contents) }

/-- `Markus.remove_file_from_repo` (decorated `parse_response("json")`). -/
def Markus.remove_file_from_repo (m : Markus) (assignment_id group_id : Int)
    (file_path : String) : Request :=
  { verb := Verb.delete,
    url := m._url ("assignments/" ++ toString assignment_id ++ "/groups/" ++ toString group_id
      ++ "/submission_files/remove_file"),
    headers := m._auth_header, params := [("filename", PyVal.str file_path)],
    jsonBody := Option.none, files := Option.none }

/-- `Markus.remove_folder_from_repo` (decorated `parse_response("json")`). -/
def Markus.remove_folder_from_repo (m : Markus) (assignment_id group_id : Int)
    (folder_path : String) : Request :=
  { verb := Verb.delete,
    url := m._url ("assignments/" ++ toString assignment_id ++ "/groups/" ++ toString group_id
      ++ "/submission_files/remove_folder"),
    headers := m._auth_header, params := [("folder_path", PyVal.str folder_path)],
    jsonBody := Option.none, files := Option.none }

/-- `Markus.get_test_specs` (decorated `parse_response("json")`). -/
def Markus.get_test_specs (m : Markus) (assignment_id : Int) : Request :=
  { verb := Verb.get,
    url := m._url ("assignments/" ++ toString assignment_id ++ "/test_specs"),
    headers := m._auth_header, params := [], jsonBody := Option.none, files := Option.none }

/-- `Markus.update_test_specs` (decorated `parse_response("json")`). -/
def Markus.update_test_specs (m : Markus) (assignment_id : Int) (specs : PyVal) : Request :=
  { verb := Verb.post,
    url := m._url ("assignments/" ++ toString assignment_id ++ "/update_test_specs"),
    headers := m._auth_header, params := [],
    jsonBody := some (PyVal.dict [("specs", specs)]), files := Option.none }

/-- `Markus.get_test_files` (decorated `parse_response("content")`). -/
def Markus.get_test_files (m : Markus) (assignment_id : Int) : Request :=
  { verb := Verb.get,
    url := m._url ("assignments/" ++ toString assignment_id ++ "/test_files"),
    headers := m._auth_header, params := [], jsonBody := Option.none, files := Option.none }

/-- `Markus.get_starter_file_entries` (decorated `parse_response("json")`). -/
def Markus.get_starter_file_entries (m : Markus) (assignment_id starter_file_group_id : Int) :
    Request :=
  { verb := Verb.get,
    url := m._url ("assignments/" ++ toString assignment_id ++ "/starter_file_groups/"
      ++ toString starter_file_group_id ++ "/entries"),
    headers := m._auth_header, params := [], jsonBody := Option.none, files := Option.none }

/-- `Markus.create_starter_file` (decorated `parse_response("json")`). -/
def Markus.create_starter_file (m : Markus) (assignment_id starter_file_group_id : Int)
    (file_path contents : String) : Request :=
  { verb := Verb.post,
    url := m._url ("assignments/" ++ toString assignment_id ++ "/starter_file_groups/"
      ++ toString starter_file_group_id ++ "/create_file"),
    headers := m._auth_header, params := [("filename", PyVal.str file_path)],
    jsonBody := Option.none,
    files := some ("file_content", file_path, PyVal.str contents) }

/-- `Markus.create_starter_folder` (decorated `parse_response("json")`). -/
def Markus.create_starter_folder (m : Markus) (assignment_id starter_file_group_id : Int)
    (folder_path : String) : Request :=
  { verb := Verb.post,
    url := m._url ("assignments/" ++ toString assignment_id ++ "/starter_file_groups/"
      ++ toString starter_file_group_id ++ "/create_folder"),
    headers := m._auth_header, params := [("folder_path", PyVal.str folder_path)],
    jsonBody := Option.none, files := Option.none }

/-- `Markus.remove_starter_file` (decorated `parse_response("json")`). -/
def Markus.remove_starter_file (m : Markus) (assignment_id starter_file_group_id : Int)
    (file_path : String) : Request :=
  { verb := Verb.delete,
    url := m._url ("assignments/" ++ toString assignment_id ++ "/starter_file_groups/"
      ++ toString starter_file_group_id ++ "/remove_file"),
    headers := m._auth_header, params := [("filename", PyVal.str file_path)],
    jsonBody := Option.none, files := Option.none }

/-- `Markus.remove_starter_folder` (decorated `parse_response("json")`). -/
def Markus.remove_starter_folder (m : Markus) (assignment_id starter_file_group_id : Int)
    (folder_path : String) : Request :=
  { verb := Verb.delete,
    url := m._url ("assignments/" ++ toString assignment_id ++ "/starter_file_groups/"
      ++ toString starter_file_group_id ++ "/remove_folder"),
    headers := m._auth_header, params := [("folder_path", PyVal.str folder_path)],
    jsonBody := Option.none, files := Option.none }

/-- `Markus.download_starter_file_entries` (decorated `parse_response("content")`). -/
def Markus.download_starter_file_entries (m : Markus)
    (assignment_id starter_file_group_id : Int) : Request :=
  { verb := Verb.get,
    url := m._url ("assignments/" ++ toString assignment_id ++ "/starter_file_groups/"
      ++ toString starter_file_group_id ++ "/download_entries"),
    headers := m._auth_header, params := [], jsonBody := Option.none, files := Option.none }

/-- `Markus.get_starter_file_groups` (decorated `parse_response("json")`). -/
def Markus.get_starter_file_groups (m : Markus) (assignment_id : Int) : Request :=
  { verb := Verb.get,
    url := m._url ("assignments/" ++ toString assignment_id ++ "/starter_file_groups"),
    headers := m._auth_header, params := [], jsonBody := Option.none, files := Option.none }

/-- `Markus.create_starter_file_group` (decorated `parse_response("json")`). -/
def Markus.create_starter_file_group (m : Markus) (assignment_id : Int) : Request :=
  { verb := Verb.post,
    url := m._url ("assignments/" ++ toString assignment_id ++ "/starter_file_groups"),
    headers := m._auth_header, params := [], jsonBody := Option.none, files := Option.none }

/-- `Markus.get_starter_file_group` (decorated `parse_response("json")`). -/
def Markus.get_starter_file_group (m : Markus) (assignment_id starter_file_group_id : Int) :
    Request :=
  { verb := Verb.get,
    url := m._url ("assignments/" ++ toString assignment_id ++ "/starter_file_groups/"
      ++ toString starter_file_group_id),
    headers := m._auth_header, params := [], jsonBody := Option.none, files := Option.none }

/-- `Markus.update_starter_file_group` (decorated `parse_response("json")`):
each optional argument is added to the dict only when not `None`. -/
def Markus.update_starter_file_group (m : Markus) (assignment_id starter_file_group_id : Int)
    (name : Option String := Option.none) (entry_rename : Option String := Option.none)
    (use_rename : Option Bool := Option.none) : Request :=
  let params : List (String × PyVal) := []
  let params := match name with
    | some s => params ++ [("name", PyVal.str s)]
    | Option.none => params
  let params := match entry_rename with
    | some s => params ++ [("entry_rename", PyVal.str s)]
    | Option.none => params
  let params := match use_rename with
    | some b => params ++ [("use_rename", PyVal.bool b)]
    | Option.none => params
  { verb := Verb.put,
    url := m._url ("assignments/" ++ toString assignment_id ++ "/starter_file_groups/"
      ++ toString starter_file_group_id),
    headers := m._auth_header, params := params, jsonBody := Option.none, files := Option.none }

/-- `Markus.delete_starter_file_group` (decorated `parse_response("json")`). -/
def Markus.delete_starter_file_group (m : Markus) (assignment_id starter_file_group_id : Int) :
    Request :=
  { verb := Verb.delete,
    url := m._url ("assignments/" ++ toString assignment_id ++ "/starter_file_groups/"
      ++ toString starter_file_group_id),
    headers := m._auth_header, params := [], jsonBody := Option.none, files := Option.none }

/-- One entry of the listing returned by `get_feedback_files`: a dict read
with `.get`, so both fields may be absent. -/
structure FeedbackFile where
  id : Option Int
  filename : Option String

/-- `next((ff.get("id") for ff in feedback_files if ff.get("filename") == title), None)`
in `Markus.upload_feedback_file`: the `id` of the first entry whose filename
matches, flattened so that a missing match and a missing `id` both give `None`. -/
def findFeedbackFileId (feedback_files : List FeedbackFile) (title : String) : Option Int :=
  match feedback_files.find? (fun ff => ff.filename == some title) with
  | some ff => ff.id
  | Option.none => Option.none

/-- The first two lines of `Markus._upload_feedback_file_internal`:
`if params["mime_type"] == None: params["mime_type"] = "text/plain"`.
Every call site puts a `"mime_type"` key into `params` beforehand. -/
def fixMimeType (params : List (String × PyVal)) : List (String × PyVal) :=
  match params.lookup "mime_type" with
  | some PyVal.none =>
      params.map (fun kv => if kv.1 == "mime_type" then ("mime_type", PyVal.str "text/plain") else kv)
  | _ => params

/-- A Python exception value raised by the source: `Exception(response)` or
`Exception(response.text)`. -/
inductive PyExc where
  | excResponse (r : Response)
  | excText (s : String)

/-- What a call to `Markus._upload_feedback_file_internal` does: it issues one
request and then raises. -/
structure InternalRun where
  request : Request
  exc : PyExc

/-- `Markus._upload_feedback_file_internal`: defaults a `None` MIME type to
`"text/plain"`, issues a PUT (overwrite) or POST (create) request, and then
unconditionally raises `Exception(response)` resp. `Exception(response.text)`.
The transport is the oracle `transport`. -/
def Markus._upload_feedback_file_internal (m : Markus) (url_content : String)
    (files : Option (String × String × PyVal)) (params : List (String × PyVal))
    (overwrite : Bool) (transport : Request → Response) : InternalRun :=
  let params := fixMimeType params
  if overwrite then
    let req : Request :=
      { verb := Verb.put, url := m._url url_content, headers := m._auth_header,
        params := params, jsonBody := Option.none, files := files }
    { request := req, exc := PyExc.excResponse (transport req) }
  else
    let req : Request :=
      { verb := Verb.post, url := m._url url_content, headers := m._auth_header,
        params := params, jsonBody := Option.none, files := files }
    { request := req, exc := PyExc.excText (transport req).text }

/-- The observable outcome of calling a decorated endpoint method: either the
normalizer's result is returned, or an exception propagates to the caller. -/
inductive MethodResult where
  | returns (v : ParseResult)
  | raisesE (e : PyExc)

/-- A full run of an endpoint method: the network requests it issued, in
order, and its outcome. -/
structure MethodRun where
  requests : List Request
  result : MethodResult

/-- `Markus.upload_feedback_file` (decorated `parse_response("json")`).
`listing` is the parsed value the inner `self.get_feedback_files` call
returned (its GET request is recorded in the run when `overwrite` is true);
`guess` is `mimetypes.guess_type`.  Because `_upload_feedback_file_internal`
always raises, the decorator never runs and the exception propagates. -/
def Markus.upload_feedback_file (m : Markus) (assignment_id group_id : Int)
    (title contents : String) (mime_type : Option String) (overwrite : Bool)
    (listing : List FeedbackFile) (guess : String → Option String)
    (transport : Request → Response) : MethodRun :=
  let url_content := "assignments/" ++ toString assignment_id ++ "/groups/"
    ++ toString group_id ++ "/feedback_files"
  let files := some ("file_content", title, PyVal.str contents)
  let params := [("filename", PyVal.str title),
                 ("mime_type", optStrVal (pyOrStr mime_type (guess title)))]
  if overwrite then
    match findFeedbackFileId listing title with
    | some fid =>
        let irun := m._upload_feedback_file_internal (url_content ++ "/" ++ toString fid)
          files params true transport
        { requests := [m.get_feedback_files assignment_id group_id, irun.request],
          result := MethodResult.raisesE irun.exc }
    | Option.none =>
        let irun := m._upload_feedback_file_internal url_content files params false transport
        { requests := [m.get_feedback_files assignment_id group_id, irun.request],
          result := MethodResult.raisesE irun.exc }
  else
    let irun := m._upload_feedback_file_internal url_content files params false transport
    { requests := [irun.request], result := MethodResult.raisesE irun.exc }

/-- `Markus.upload_feedback_file_with_test_run_id` (decorated
`parse_response("json")`).  The source's `if overwrite: pass` has no effect,
and the internal helper is always called with `overwrite=False`; because the
helper always raises, the exception propagates. -/
def Markus.upload_feedback_file_with_test_run_id (m : Markus) (test_run_id : Int)
    (title contents : String) (mime_type : Option String) (overwrite : Bool)
    (guess : String → Option String) (transport : Request → Response) : MethodRun :=
  let url_content := "feedback_files"
  let files := some ("file_content", title, PyVal.str contents)
  let params := [("filename", PyVal.str title),
                 ("mime_type", optStrVal (pyOrStr mime_type (guess title))),
                 ("test_run_id", PyVal.int test_run_id)]
  let irun := m._upload_feedback_file_internal url_content files params false transport
  { requests := [irun.request], result := MethodResult.raisesE irun.exc }

/-- A full run of `Markus.upload_file_to_repo`: the method issues its single
POST request and returns the normalizer's result; no local check precedes the
network call. -/
def Markus.upload_file_to_repo_run (m : Markus) (assignment_id group_id : Int)
    (file_path contents : String) (mime_type : Option String)
    (guess : String → Option String) (transport : Request → Response) : MethodRun :=
  let req := m.upload_file_to_repo assignment_id group_id file_path contents mime_type guess
  { requests := [req], result := MethodResult.returns (parse_response "json" (transport req)) }

/-- One invocation of one endpoint method of `Markus`, with the method's
arguments and, for the methods that consult external collaborators before
building their requests, the oracles they consult (`listing` for the inner
`get_feedback_files` call, `guess` for `mimetypes.guess_type`, `transport`
for the HTTP client).  This enumerates every `parse_response`-decorated
method of `markusapi/markusapi.py`. -/
inductive Call where
  | get_all_users
  | new_user (user_name user_type first_name last_name : String)
      (section_name grace_credits : Option String)
  | get_assignments
  | get_groups (assignment_id : Int)
  | get_groups_by_name (assignment_id : Int)
  | get_group (assignment_id group_id : Int)
  | get_feedback_files (assignment_id group_id : Int)
  | get_feedback_file (assignment_id group_id feedback_file_id : Int)
  | get_grades_summary (assignment_id : Int)
  | new_marks_spreadsheet (short_identifier description : String) (date : Option Int)
      (is_hidden show_total : Bool) (grade_entry_items : Option (List PyVal))
  | update_marks_spreadsheet (spreadsheet_id : Int) (short_identifier description : Option String)
      (date : Option Int) (is_hidden show_total : Option Bool)
      (grade_entry_items : Option (List PyVal))
  | update_marks_spreadsheets_grades (spreadsheet_id : Int) (user_name : String)
      (grades_per_column : List (String × PyVal))
  | get_marks_spreadsheets
  | get_marks_spreadsheet (spreadsheet_id : Int)
  | upload_feedback_file (assignment_id group_id : Int) (title contents : String)
      (mime_type : Option String) (overwrite : Bool) (listing : List FeedbackFile)
      (guess : String → Option String) (transport : Request → Response)
  | upload_feedback_file_with_test_run_id (test_run_id : Int) (title contents : String)
      (mime_type : Option String) (overwrite : Bool) (guess : String → Option String)
      (transport : Request → Response)
  | upload_test_group_results (assignment_id group_id test_run_id : Int) (test_output : String)
  | upload_annotations (assignment_id group_id : Int) (annotations : List PyVal)
      (force_complete : Bool)
  | get_annotations (assignment_id : Int) (group_id : Option Int)
  | update_marks_single_group (criteria_mark_map : PyVal) (assignment_id group_id : Int)
  | update_marking_state (assignment_id group_id : Int) (new_marking_state : String)
  | create_extra_marks (assignment_id group_id : Int) (extra_marks : Int) (description : String)
  | remove_extra_marks (assignment_id group_id : Int) (extra_marks : Int) (description : String)
  | get_files_from_repo (assignment_id group_id : Int) (filename : Option String)
      (collected : Bool)
  | upload_folder_to_repo (assignment_id group_id : Int) (folder_path : String)
  | upload_file_to_repo (assignment_id group_id : Int) (file_path contents : String)
      (mime_type : Option String) (guess : String → Option String)
  | remove_file_from_repo (assignment_id group_id : Int) (file_path : String)
  | remove_folder_from_repo (assignment_id group_id : Int) (folder_path : String)
  | get_test_specs (assignment_id : Int)
  | update_test_specs (assignment_id : Int) (specs : PyVal)
  | get_test_files (assignment_id : Int)
  | get_starter_file_entries (assignment_id starter_file_group_id : Int)
  | create_starter_file (assignment_id starter_file_group_id : Int) (file_path contents : String)
  | create_starter_folder (assignment_id starter_file_group_id : Int) (folder_path : String)
  | remove_starter_file (assignment_id starter_file_group_id : Int) (file_path : String)
  | remove_starter_folder (assignment_id starter_file_group_id : Int) (folder_path : String)
  | download_starter_file_entries (assignment_id starter_file_group_id : Int)
  | get_starter_file_groups (assignment_id : Int)
  | create_starter_file_group (assignment_id : Int)
  | get_starter_file_group (assignment_id starter_file_group_id : Int)
  | update_starter_file_group (assignment_id starter_file_group_id : Int)
      (name entry_rename : Option String) (use_rename : Option Bool)
  | delete_starter_file_group (assignment_id starter_file_group_id : Int)

/-- The expectation tag each endpoint method is decorated with:
`@parse_response("json" | "text" | "content")` in the source. -/
def Call.tag : Call → String
  | Call.get_feedback_file .. => "content"
  | Call.get_grades_summary .. => "text"
  | Call.get_marks_spreadsheet .. => "text"
  | Call.get_files_from_repo .. => "content"
  | Call.get_test_files .. => "content"
  | Call.download_starter_file_entries .. => "content"
  | _ => "json"

/-- The network requests the endpoint method issues against the client `m`,
in order.  All methods issue exactly one request, except
`upload_feedback_file` with `overwrite=True`, which first issues the
`get_feedback_files` GET. -/
def Call.requests (m : Markus) : Call → List Request
  | Call.get_all_users => [m.get_all_users]
  | Call.new_user un ut fn ln sn gc => [m.new_user un ut fn ln sn gc]
  | Call.get_assignments => [m.get_assignments]
  | Call.get_groups a => [m.get_groups a]
  | Call.get_groups_by_name a => [m.get_groups_by_name a]
  | Call.get_group a g => [m.get_group a g]
  | Call.get_feedback_files a g => [m.get_feedback_files a g]
  | Call.get_feedback_file a g f => [m.get_feedback_file a g f]
  | Call.get_grades_summary a => [m.get_grades_summary a]
  | Call.new_marks_spreadsheet si d dt ih st ge => [m.new_marks_spreadsheet si d dt ih st ge]
  | Call.update_marks_spreadsheet sp si d dt ih st ge =>
      [m.update_marks_spreadsheet sp si d dt ih st ge]
  | Call.update_marks_spreadsheets_grades sp un gr => [m.update_marks_spreadsheets_grades sp un gr]
  | Call.get_marks_spreadsheets => [m.get_marks_spreadsheets]
  | Call.get_marks_spreadsheet sp => [m.get_marks_spreadsheet sp]
  | Call.upload_feedback_file a g t c mt ow l gu tr =>
      (m.upload_feedback_file a g t c mt ow l gu tr).requests
  | Call.upload_feedback_file_with_test_run_id t ti c mt ow gu tr =>
      (m.upload_feedback_file_with_test_run_id t ti c mt ow gu tr).requests
  | Call.upload_test_group_results a g t o => [m.upload_test_group_results a g t o]
  | Call.upload_annotations a g an fc => [m.upload_annotations a g an fc]
  | Call.get_annotations a g => [m.get_annotations a g]
  | Call.update_marks_single_group cm a g => [m.update_marks_single_group cm a g]
  | Call.update_marking_state a g s => [m.update_marking_state a g s]
  | Call.create_extra_marks a g e d => [m.create_extra_marks a g e d]
  | Call.remove_extra_marks a g e d => [m.remove_extra_marks a g e d]
  | Call.get_files_from_repo a g f c => [m.get_files_from_repo a g f c]
  | Call.upload_folder_to_repo a g f => [m.upload_folder_to_repo a g f]
  | Call.upload_file_to_repo a g fp c mt gu => [m.upload_file_to_repo a g fp c mt gu]
  | Call.remove_file_from_repo a g f => [m.remove_file_from_repo a g f]
  | Call.remove_folder_from_repo a g f => [m.remove_folder_from_repo a g f]
  | Call.get_test_specs a => [m.get_test_specs a]
  | Call.update_test_specs a s => [m.update_test_specs a s]
  | Call.get_test_files a => [m.get_test_files a]
  | Call.get_starter_file_entries a s => [m.get_starter_file_entries a s]
  | Call.create_starter_file a s fp c => [m.create_starter_file a s fp c]
  | Call.create_starter_folder a s f => [m.create_starter_folder a s f]
  | Call.remove_starter_file a s f => [m.remove_starter_file a s f]
  | Call.remove_starter_folder a s f => [m.remove_starter_folder a s f]
  | Call.download_starter_file_entries a s => [m.download_starter_file_entries a s]
  | Call.get_starter_file_groups a => [m.get_starter_file_groups a]
  | Call.create_starter_file_group a => [m.create_starter_file_group a]
  | Call.get_starter_file_group a s => [m.get_starter_file_group a s]
  | Call.update_starter_file_group a s n e u => [m.update_starter_file_group a s n e u]
  | Call.delete_starter_file_group a s => [m.delete_starter_file_group a s]

/-! Helper lemmas and concrete example inputs shared by the theorems below. -/

/-- A concrete client, matching the fixture used by the project's test suite. -/
def exampleClient : Markus :=
  { api_key := "fake_api_key", url := "http://example.com" }

/-- A concrete feedback-file listing with one entry. -/
def exampleListing : List FeedbackFile :=
  [{ id := some 1, filename := some "test.txt" }]

/-- A concrete transport oracle returning a fixed successful response. -/
def exampleTransport : Request → Response :=
  fun _ => { ok := true, json := PyVal.str "ok", text := "posted", content := [] }

/-- The request built by `_upload_feedback_file_internal` always carries the
client's auth header. -/
theorem internal_request_headers (m : Markus) (u : String)
    (f : Option (String × String × PyVal)) (p : List (String × PyVal)) (ow : Bool)
    (tr : Request → Response) :
    (Markus._upload_feedback_file_internal m u f p ow tr).request.headers = m._auth_header := by
  cases ow <;> rfl

/-- Entries of a dict whose key differs from `"mime_type"` survive
`fixMimeType` unchanged. -/
theorem mem_fixMimeType_of_ne (l : List (String × PyVal)) (k : String) (v : PyVal)
    (hk : (k == "mime_type") = false) (hmem : (k, v) ∈ l) : (k, v) ∈ fixMimeType l := by
  unfold fixMimeType
  split
  · have hmap := List.mem_map_of_mem
      (fun kv : String × PyVal =>
        if kv.1 == "mime_type" then ("mime_type", PyVal.str "text/plain") else kv) hmem
    simpa [hk] using hmap
  · exact hmem

/-- Filtering preserves the filter's own predicate. -/
theorem all_filter_self (p : α → Bool) (l : List α) : (l.filter p).all p = true := by
  induction l with
  | nil => rfl
  | cons x xs ih =>
      by_cases h : p x = true
      · simp [List.filter_cons, h, ih]
      · simp [List.filter_cons, h, ih]

/-- If the listing holds a matching entry and every entry carries an id, the
flattened search of `upload_feedback_file` finds the id of a matching entry. -/
theorem findFeedbackFileId_found (listing : List FeedbackFile) (title : String)
    (hids : ∀ ff ∈ listing, (ff.id).isSome = true)
    (hmem : ∃ ff ∈ listing, ff.filename = some title) :
    ∃ fid, findFeedbackFileId listing title = some fid
      ∧ ∃ ff ∈ listing, ff.filename = some title ∧ ff.id = some fid := by
  obtain ⟨ff, hm, hn⟩ := hmem
  have hsome : (listing.find? (fun x => x.filename == some title)).isSome := by
    rw [List.find?_isSome]
    exact ⟨ff, hm, by simp [hn]⟩
  obtain ⟨ff0, hfind0⟩ := Option.isSome_iff_exists.mp hsome
  have hmem0 : ff0 ∈ listing := List.mem_of_find?_eq_some hfind0
  have hname0 : ff0.filename = some title := by
    have hp := List.find?_some hfind0
    simpa using hp
  obtain ⟨fid, hfid⟩ := Option.isSome_iff_exists.mp (hids ff0 hmem0)
  refine ⟨fid, ?_, ff0, hmem0, hname0, hfid⟩
  unfold findFeedbackFileId
  rw [hfind0]
  exact hfid

/-- If no entry of the listing matches, the flattened search returns `None`. -/
theorem findFeedbackFileId_not_found (listing : List FeedbackFile) (title : String)
    (h : ∀ ff ∈ listing, ff.filename ≠ some title) :
    findFeedbackFileId listing title = Option.none := by
  unfold findFeedbackFileId
  rw [List.find?_eq_none.mpr (fun ff hff => by simp [h ff hff])]

/-- C1: for every endpoint method (hence for each of the expectation tags
`json`, `text`, `content` it may be decorated with), when the underlying HTTP
response indicates failure (`ok = false`, i.e. status >= 400), the response
normalizer applied to that method's tag returns the JSON-decoded error body,
regardless of the tag. -/
theorem claim1_error_unification (c : Call) (r : Response) (h : r.ok = false) :
    parse_response (Call.tag c) r = ParseResult.json r.json := by
  unfold parse_response
  rw [h]
  simp

/-- Witness for C1 at a `content`-tagged endpoint and a failing response. -/
theorem claim1_error_unification_witness :
    ({ ok := false, json := PyVal.str "err", text := "t", content := [] } : Response).ok = false
      ∧ parse_response (Call.tag (Call.get_feedback_file 1 1 1))
          { ok := false, json := PyVal.str "err", text := "t", content := [] }
        = ParseResult.json (PyVal.str "err") :=
  ⟨rfl, claim1_error_unification (Call.get_feedback_file 1 1 1) _ rfl⟩

/-- C2: for every successful response (`ok = true`, i.e. status < 400), the
response normalizer returns the JSON-decoded body for tag `json`, the raw byte
payload for tag `content`, and the decoded text payload for tag `text`. -/
theorem claim2_success_dispatch (r : Response) (h : r.ok = true) :
    parse_response "json" r = ParseResult.json r.json
      ∧ parse_response "content" r = ParseResult.content r.content
      ∧ parse_response "text" r = ParseResult.text r.text := by
  refine ⟨?_, ?_, ?_⟩ <;> (unfold parse_response; rw [h]; simp)

/-- Witness for C2 at a concrete successful response. -/
theorem claim2_success_dispatch_witness :
    ({ ok := true, json := PyVal.str "j", text := "t", content := [7] } : Response).ok = true
      ∧ parse_response "json" { ok := true, json := PyVal.str "j", text := "t", content := [7] }
          = ParseResult.json (PyVal.str "j")
      ∧ parse_response "content" { ok := true, json := PyVal.str "j", text := "t", content := [7] }
          = ParseResult.content [7]
      ∧ parse_response "text" { ok := true, json := PyVal.str "j", text := "t", content := [7] }
          = ParseResult.text "t" :=
  ⟨rfl, claim2_success_dispatch { ok := true, json := PyVal.str "j", text := "t", content := [7] } rfl⟩

/-- C6: every request issued by every endpoint method, for every argument
combination, carries exactly the header
`Authorization: MarkUsAuth {api_key}` built from the client's key. -/
theorem claim6_auth_header (m : Markus) (c : Call) (r : Request)
    (hr : r ∈ Call.requests m c) :
    r.headers = [("Authorization", "MarkUsAuth " ++ m.api_key)] := by
  have base : m._auth_header = [("Authorization", "MarkUsAuth " ++ m.api_key)] := rfl
  cases c <;>
    first
      | (simp only [Call.requests, List.mem_singleton] at hr; subst hr; exact base)
      | skip
  case upload_feedback_file a g t ct mt ow l gu tr =>
    simp only [Call.requests, Markus.upload_feedback_file] at hr
    cases ow with
    | false =>
        simp only [Bool.false_eq_true, if_false, List.mem_singleton] at hr
        subst hr
        rw [internal_request_headers]
        exact base
    | true =>
        simp only [if_true] at hr
        cases hfid : findFeedbackFileId l t <;> rw [hfid] at hr <;>
          simp only [List.mem_cons, List.mem_singleton, List.not_mem_nil, or_false] at hr <;>
          rcases hr with hr | hr <;> subst hr <;> exact base
  case upload_feedback_file_with_test_run_id tid t ct mt ow gu tr =>
    simp only [Call.requests, Markus.upload_feedback_file_with_test_run_id,
      List.mem_singleton] at hr
    subst hr
    rw [internal_request_headers]
    exact base

/-- Witness for C6 at a concrete client and endpoint. -/
theorem claim6_auth_header_witness :
    (Markus.get_all_users exampleClient).headers
      = [("Authorization", "MarkUsAuth " ++ exampleClient.api_key)] :=
  claim6_auth_header exampleClient Call.get_all_users _ (by simp [Call.requests])

/-- Counterexample to C3: `get_feedback_file` is a `content`-tagged
(raw-content) endpoint, yet its URL still carries the `.json` suffix, so the
claimed suffix-free URL for content endpoints is wrong. -/
theorem claim3_counterexample :
    Call.tag (Call.get_feedback_file 1 1 1) = "content"
      ∧ (Markus.get_feedback_file exampleClient 1 1 1).url
          = "http://example.com/api/assignments/1/groups/1/feedback_files/1.json"
      ∧ (Markus.get_feedback_file exampleClient 1 1 1).url
          ≠ "http://example.com/api/assignments/1/groups/1/feedback_files/1" := by
  refine ⟨rfl, by decide, by decide⟩

/-- C3 as amended: every request issued by every endpoint method, content
endpoints included, targets a URL of the form `{base_url}/api/{path}.json`;
the `.json` suffix is never dropped. -/
theorem claim3_amended_url_shape (m : Markus) (c : Call) (r : Request)
    (hr : r ∈ Call.requests m c) :
    ∃ tail, r.url = m.url ++ "/api/" ++ tail ++ ".json" := by
  cases c <;>
    first
      | (simp only [Call.requests, List.mem_singleton] at hr; subst hr; exact ⟨_, rfl⟩)
      | skip
  case upload_feedback_file a g t ct mt ow l gu tr =>
    simp only [Call.requests, Markus.upload_feedback_file] at hr
    cases ow with
    | false =>
        simp only [Bool.false_eq_true, if_false, List.mem_singleton] at hr
        subst hr
        exact ⟨_, rfl⟩
    | true =>
        simp only [if_true] at hr
        cases hfid : findFeedbackFileId l t <;> rw [hfid] at hr <;>
          simp only [List.mem_cons, List.mem_singleton, List.not_mem_nil, or_false] at hr <;>
          rcases hr with hr | hr <;> subst hr <;> exact ⟨_, rfl⟩
  case upload_feedback_file_with_test_run_id tid t ct mt ow gu tr =>
    simp only [Call.requests, Markus.upload_feedback_file_with_test_run_id,
      List.mem_singleton] at hr
    subst hr
    exact ⟨_, rfl⟩

/-- Witness for the amended C3 at a concrete content-tagged endpoint. -/
theorem claim3_amended_url_shape_witness :
    ∃ tail, (Markus.get_files_from_repo exampleClient 1 1 Option.none true).url
      = exampleClient.url ++ "/api/" ++ tail ++ ".json" :=
  claim3_amended_url_shape exampleClient (Call.get_files_from_repo 1 1 Option.none true) _
    (by simp [Call.requests])

/-- Counterexample to C5: with the optional group id absent,
`get_annotations` renders the literal segment `None` into the path instead of
skipping the id segment. -/
theorem claim5_counterexample :
    (Markus.get_annotations exampleClient 1 Option.none).url
        = "http://example.com/api/assignments/1/groups/None/annotations.json"
      ∧ (Markus.get_annotations exampleClient 1 Option.none).url
          ≠ "http://example.com/api/assignments/1/groups/annotations.json" := by
  refine ⟨by decide, by decide⟩

/-- C5 as amended: the resource names appear in the path in the order
supplied, each followed by `/{id}` when its id is present; an absent id is
not skipped but rendered as the literal segment `None` (Python `str(None)`). -/
theorem claim5_amended_annotations_path (m : Markus) (assignment_id : Int)
    (group_id : Option Int) :
    (m.get_annotations assignment_id group_id).url
        = m._url ("assignments/" ++ toString assignment_id ++ "/groups/"
            ++ pyStrOptInt group_id ++ "/annotations")
      ∧ (∀ g : Int, pyStrOptInt (some g) = toString g)
      ∧ pyStrOptInt Option.none = "None" :=
  ⟨rfl, fun _ => rfl, rfl⟩

/-- C4: for `upload_feedback_file` with `overwrite=True`, when the listing
returned by `get_feedback_files` contains an entry whose filename equals the
title (entries of a real listing carry an id, which the hypothesis `hids`
records), the final request is a PUT to the feedback-files path suffixed with
that entry's id; when no filename matches, or `overwrite=False`, the final
request is a POST to the path without an id suffix. -/
theorem claim4_overwrite_put_else_post (m : Markus) (a g : Int) (title contents : String)
    (mt : Option String) (listing : List FeedbackFile) (gu : String → Option String)
    (tr : Request → Response) (hids : ∀ ff ∈ listing, (ff.id).isSome = true) :
    ((∃ ff ∈ listing, ff.filename = some title) →
        ∃ fid req,
          findFeedbackFileId listing title = some fid
          ∧ (∃ ff ∈ listing, ff.filename = some title ∧ ff.id = some fid)
          ∧ (m.upload_feedback_file a g title contents mt true listing gu tr).requests
              = [m.get_feedback_files a g, req]
          ∧ req.verb = Verb.put
          ∧ req.url = m._url ("assignments/" ++ toString a ++ "/groups/" ++ toString g
              ++ "/feedback_files" ++ "/" ++ toString fid))
      ∧ ((∀ ff ∈ listing, ff.filename ≠ some title) →
          ∃ req,
            (m.upload_feedback_file a g title contents mt true listing gu tr).requests
              = [m.get_feedback_files a g, req]
            ∧ req.verb = Verb.post
            ∧ req.url = m._url ("assignments/" ++ toString a ++ "/groups/" ++ toString g
                ++ "/feedback_files"))
      ∧ (∃ req,
          (m.upload_feedback_file a g title contents mt false listing gu tr).requests = [req]
          ∧ req.verb = Verb.post
          ∧ req.url = m._url ("assignments/" ++ toString a ++ "/groups/" ++ toString g
              ++ "/feedback_files")) := by
  refine ⟨?_, ?_, ?_⟩
  · intro hmem
    obtain ⟨fid, hfind, hff⟩ := findFeedbackFileId_found listing title hids hmem
    refine ⟨fid,
      (Markus._upload_feedback_file_internal m
        ("assignments/" ++ toString a ++ "/groups/" ++ toString g ++ "/feedback_files"
          ++ "/" ++ toString fid)
        (some ("file_content", title, PyVal.str contents))
        [("filename", PyVal.str title), ("mime_type", optStrVal (pyOrStr mt (gu title)))]
        true tr).request,
      hfind, hff, ?_, rfl, rfl⟩
    simp only [Markus.upload_feedback_file, if_true, hfind]
  · intro hnone
    have hfind := findFeedbackFileId_not_found listing title hnone
    refine ⟨
      (Markus._upload_feedback_file_internal m
        ("assignments/" ++ toString a ++ "/groups/" ++ toString g ++ "/feedback_files")
        (some ("file_content", title, PyVal.str contents))
        [("filename", PyVal.str title), ("mime_type", optStrVal (pyOrStr mt (gu title)))]
        false tr).request,
      ?_, rfl, rfl⟩
    simp only [Markus.upload_feedback_file, if_true, hfind]
  · exact ⟨(Markus._upload_feedback_file_internal m
        ("assignments/" ++ toString a ++ "/groups/" ++ toString g ++ "/feedback_files")
        (some ("file_content", title, PyVal.str contents))
        [("filename", PyVal.str title), ("mime_type", optStrVal (pyOrStr mt (gu title)))]
        false tr).request,
      rfl, rfl, rfl⟩

/-- Witness for C4: with one matching feedback file of id 1 and
`overwrite=True`, the upload issues a PUT to the path suffixed with `/1`. -/
theorem claim4_overwrite_put_else_post_witness :
    ∃ fid req,
      findFeedbackFileId exampleListing "test.txt" = some fid
      ∧ (∃ ff ∈ exampleListing, ff.filename = some "test.txt" ∧ ff.id = some fid)
      ∧ (Markus.upload_feedback_file exampleClient 1 1 "test.txt" "feedback info"
            Option.none true exampleListing (fun _ => some "text/plain")
            exampleTransport).requests
        = [Markus.get_feedback_files exampleClient 1 1, req]
      ∧ req.verb = Verb.put
      ∧ req.url = exampleClient._url ("assignments/" ++ toString (1 : Int) ++ "/groups/"
          ++ toString (1 : Int) ++ "/feedback_files" ++ "/" ++ toString fid) :=
  (claim4_overwrite_put_else_post exampleClient 1 1 "test.txt" "feedback info" Option.none
      exampleListing (fun _ => some "text/plain") exampleTransport
      (by rintro ff hff; rw [exampleListing, List.mem_singleton] at hff; subst hff; rfl)).1
    ⟨{ id := some 1, filename := some "test.txt" }, by rw [exampleListing]; simp, rfl⟩

/-- C7 is a code bug: `_upload_feedback_file_internal` unconditionally raises
`Exception(response)` (PUT branch) or `Exception(response.text)` (POST
branch) after issuing its request, so neither `upload_feedback_file` nor
`upload_feedback_file_with_test_run_id` ever returns the normalizer's result;
their `parse_response("json")` decorator is dead code.  The first two parts
state this for all inputs; the last two evaluate concrete runs. -/
theorem claim7_upload_never_returns :
    (∀ (m : Markus) (a g : Int) (t c : String) (mt : Option String) (ow : Bool)
        (l : List FeedbackFile) (gu : String → Option String) (tr : Request → Response),
        ∃ e, (m.upload_feedback_file a g t c mt ow l gu tr).result = MethodResult.raisesE e)
      ∧ (∀ (m : Markus) (tid : Int) (t c : String) (mt : Option String) (ow : Bool)
          (gu : String → Option String) (tr : Request → Response),
          ∃ e, (m.upload_feedback_file_with_test_run_id tid t c mt ow gu tr).result
            = MethodResult.raisesE e)
      ∧ (Markus.upload_feedback_file exampleClient 1 1 "test.txt" "feedback info"
            Option.none true exampleListing (fun _ => some "text/plain")
            exampleTransport).result
          = MethodResult.raisesE (PyExc.excResponse
              { ok := true, json := PyVal.str "ok", text := "posted", content := [] })
      ∧ (Markus.upload_feedback_file_with_test_run_id exampleClient 1 "test.txt"
            "feedback info" Option.none true (fun _ => some "text/plain")
            exampleTransport).result
          = MethodResult.raisesE (PyExc.excText "posted") := by
  refine ⟨?_, ?_, ?_, ?_⟩
  · intro m a g t c mt ow l gu tr
    unfold Markus.upload_feedback_file
    cases ow with
    | false => exact ⟨_, rfl⟩
    | true =>
        cases hfid : findFeedbackFileId l t <;> simp only [hfid, if_true] <;> exact ⟨_, rfl⟩
  · intro m tid t c mt ow gu tr
    exact ⟨_, rfl⟩
  · rfl
  · rfl

/-- C10: `upload_feedback_file_with_test_run_id` ignores its `overwrite`
argument entirely: for any two values of `overwrite` the whole run is
identical, the method never looks up existing feedback files (it issues
exactly one request), that request is a POST (never a PUT), and its
parameters carry the `test_run_id`. -/
theorem claim10_always_post_with_test_run_id (m : Markus) (tid : Int)
    (title contents : String) (mt : Option String) (gu : String → Option String)
    (tr : Request → Response) (ow1 ow2 : Bool) :
    m.upload_feedback_file_with_test_run_id tid title contents mt ow1 gu tr
        = m.upload_feedback_file_with_test_run_id tid title contents mt ow2 gu tr
      ∧ ∃ req,
          (m.upload_feedback_file_with_test_run_id tid title contents mt ow1 gu tr).requests
            = [req]
          ∧ req.verb = Verb.post
          ∧ req.verb ≠ Verb.put
          ∧ ("test_run_id", PyVal.int tid) ∈ req.params := by
  refine ⟨rfl,
    (Markus._upload_feedback_file_internal m "feedback_files"
      (some ("file_content", title, PyVal.str contents))
      [("filename", PyVal.str title), ("mime_type", optStrVal (pyOrStr mt (gu title))),
        ("test_run_id", PyVal.int tid)] false tr).request,
    rfl, rfl, ?_, ?_⟩
  · intro h
    exact Verb.noConfusion h
  · exact mem_fixMimeType_of_ne _ _ _ (by decide) (by simp)

/-- Counterexample to C8: `new_marks_spreadsheet` with `date` unset keeps the
`"date"` key in its parameter mapping with a null value instead of omitting
it (the same holds for `grade_entry_items`). -/
theorem claim8_counterexample :
    (Markus.new_marks_spreadsheet exampleClient "sheet" "" Option.none true true
        Option.none).params.lookup "date" = some PyVal.none
      ∧ ¬ ((Markus.new_marks_spreadsheet exampleClient "sheet" "" Option.none true true
            Option.none).params.lookup "date" = Option.none)
      ∧ (Markus.new_marks_spreadsheet exampleClient "sheet" "" Option.none true true
          Option.none).params.lookup "grade_entry_items" = some PyVal.none := by
  refine ⟨rfl, ?_, rfl⟩
  intro h
  rw [show (Markus.new_marks_spreadsheet exampleClient "sheet" "" Option.none true true
      Option.none).params.lookup "date" = some PyVal.none from rfl] at h
  exact Option.noConfusion h

/-- C8 as amended: `new_user` and `update_marks_spreadsheet` omit unset
optional fields from the parameter mapping (and include them when set), but
`new_marks_spreadsheet` always keeps all six keys, mapping an unset optional
argument to a null value. -/
theorem claim8_amended_optional_fields :
    (∀ (m : Markus) (un ut fn ln : String) (gc : Option String),
        (m.new_user un ut fn ln Option.none gc).params.lookup "section_name" = Option.none)
      ∧ (∀ (m : Markus) (un ut fn ln : String) (sn : Option String),
          (m.new_user un ut fn ln sn Option.none).params.lookup "grace_credits" = Option.none)
      ∧ (∀ (m : Markus) (un ut fn ln s : String) (gc : Option String),
          (m.new_user un ut fn ln (some s) gc).params.lookup "section_name"
            = some (PyVal.str s))
      ∧ (∀ (m : Markus) (un ut fn ln s : String) (sn : Option String),
          (m.new_user un ut fn ln sn (some s)).params.lookup "grace_credits"
            = some (PyVal.str s))
      ∧ (∀ (m : Markus) (sp : Int) (si d : Option String) (dt : Option Int)
          (ih st : Option Bool) (ge : Option (List PyVal)),
          ((m.update_marks_spreadsheet sp si d dt ih st ge).params.all
            (fun kv => !kv.2.isNone)) = true)
      ∧ (∀ (m : Markus) (si desc : String) (ih st : Bool),
          (m.new_marks_spreadsheet si desc Option.none ih st Option.none).params.lookup "date"
            = some PyVal.none) := by
  refine ⟨?_, ?_, ?_, ?_, ?_, ?_⟩
  · intro m un ut fn ln gc
    cases gc <;> rfl
  · intro m un ut fn ln sn
    cases sn <;> rfl
  · intro m un ut fn ln s gc
    cases gc <;> rfl
  · intro m un ut fn ln s sn
    cases sn <;> rfl
  · intro m sp si d dt ih st ge
    exact all_filter_self _ _
  · intro m si desc ih st
    rfl

/-- Counterexample to C9: uploading `"noext"` to the repo with no explicit
MIME type and an extension the guesser cannot resolve raises no local
validation error: the POST request is issued (with a null `mime_type`
parameter) and the run returns the normalizer's result. -/
theorem claim9_counterexample :
    (Markus.upload_file_to_repo_run exampleClient 1 1 "noext" "c" Option.none
        (fun _ => Option.none) exampleTransport).requests
      = [Markus.upload_file_to_repo exampleClient 1 1 "noext" "c" Option.none
          (fun _ => Option.none)]
      ∧ (Markus.upload_file_to_repo exampleClient 1 1 "noext" "c" Option.none
          (fun _ => Option.none)).params.lookup "mime_type" = some PyVal.none
      ∧ (Markus.upload_file_to_repo_run exampleClient 1 1 "noext" "c" Option.none
          (fun _ => Option.none) exampleTransport).result
        = MethodResult.returns (ParseResult.json (PyVal.str "ok")) :=
  ⟨rfl, rfl, rfl⟩

/-- C9 as amended: a missing MIME type that cannot be inferred never aborts
the call before the network: `upload_file_to_repo` issues its request with a
null `mime_type` parameter and returns the normalizer's result, and the
feedback-file upload helper replaces a null `mime_type` by `"text/plain"`
in the request it issues. -/
theorem claim9_amended_mime_defaults :
    (∀ (m : Markus) (a g : Int) (fp c : String) (tr : Request → Response),
        (m.upload_file_to_repo_run a g fp c Option.none (fun _ => Option.none) tr).requests
          = [m.upload_file_to_repo a g fp c Option.none (fun _ => Option.none)]
        ∧ (m.upload_file_to_repo a g fp c Option.none
            (fun _ => Option.none)).params.lookup "mime_type" = some PyVal.none
        ∧ (m.upload_file_to_repo_run a g fp c Option.none (fun _ => Option.none) tr).result
            = MethodResult.returns (parse_response "json"
                (tr (m.upload_file_to_repo a g fp c Option.none (fun _ => Option.none)))))
      ∧ (∀ (m : Markus) (u fp : String) (f : Option (String × String × PyVal)) (ow : Bool)
          (tr : Request → Response),
          (Markus._upload_feedback_file_internal m u f
              [("filename", PyVal.str fp), ("mime_type", PyVal.none)] ow
              tr).request.params.lookup "mime_type" = some (PyVal.str "text/plain")) := by
  constructor
  · intro m a g fp c tr
    exact ⟨rfl, rfl, rfl⟩
  · intro m u fp f ow tr
    cases ow <;> rfl
